import Mathlib

/-!
Verification of the FileRunner backend's authentication and authorization
core, as a shallow embedding of the Rust source under `src/backend/src`:
`utils/jwt.rs` (token minting/verification), `middleware/auth.rs`
(required/optional authentication gates), `handlers/auth.rs` (refresh-token
rotation, reuse detection, password change), `handlers/file.rs`
(upload path validation, download visibility, single and bulk delete),
and the route wiring in `main.rs`.

Modelling conventions, fixed once here:
* UUIDs are naturals; their decimal rendering stands for the string form
  that `Uuid::parse_str` accepts.  An absent or unparseable API key are
  collapsed into `Option.none` where the code treats both identically
  (every `Uuid::parse_str(api_key).map_err(|_| Unauthorized)` site).
* JWTs are records of their decoded JSON payload together with a
  `validSig` flag meaning the HS256 signature verifies under the server's
  single `jwt_secret`, and the raw compact string `raw`.  serde field
  requirements of the three claims structs are modelled by `Option`
  fields of the payload.  `jsonwebtoken`'s `Validation::default()` expiry
  check is modelled as `exp ≤ now ⇒ expired` (clock leeway abstracted).
* SHA-256 (`hash_token`) is a collision-free lookup key in the code's
  intended use; it is modelled as the identity on raw token strings.
* Database tables are Lean lists of row records; SQL `UPDATE ... WHERE`
  statements become `List.map` with a conditional, `SELECT ... WHERE`
  becomes `List.find?`/`List.filter`, `DELETE`/`INSERT` become
  `List.filter`/append.  The blob store is a list of occupied paths.
* External collaborators (password hashing, multipart parsing, disk I/O
  faults) enter as explicit function parameters or are out of scope.
-/

deriving instance DecidableEq for Except

namespace FileRunner

/-- UUIDs modelled as naturals (collision-free opaque identifiers). -/
abbrev Uuid := Nat

/-- `UserRole` from `models/user.rs`. -/
inductive UserRole
  | admin
  | user
deriving DecidableEq, Repr

/-- `AppError` from `error.rs`.  The `TokenReuseDetected` and
`RefreshTokenExpired` variants are the ones `handlers/auth.rs` raises at
lines 218 and 223; payload-free variants keep only the data the claims
need (`Database` drops the wrapped sqlx error). -/
inductive AppError
  | Database
  | Unauthorized
  | InvalidCredentials
  | TokenError (msg : String)
  | NotFound (msg : String)
  | BadRequest (msg : String)
  | InternalError (msg : String)
  | FileError (msg : String)
  | ValidationError (msg : String)
  | SignupDisabled
  | TokenReuseDetected
  | RefreshTokenExpired
deriving DecidableEq, Repr

/-- Decimal string to natural, the model of `Uuid::parse_str`. -/
def digitsToNat : List Char → Nat → Option Nat
  | [], acc => some acc
  | c :: rest, acc =>
    if c.isDigit then digitsToNat rest (acc * 10 + (c.toNat - '0'.toNat)) else none

/-- Model of `uuid::Uuid::parse_str`: succeeds exactly on the renderings
of our `Uuid` values (nonempty digit strings). -/
def parseUuid (s : String) : Option Uuid :=
  match s.data with
  | [] => none
  | l => digitsToNat l 0

/-! ## utils/jwt.rs — Credential Verifier -/

/-- The decoded JSON payload of a signed JWT as serde sees it when
deserializing into the claims structs of `utils/jwt.rs`.  `Option` fields
model presence of the corresponding JSON keys. -/
structure TokenPayload where
  sub : String
  email : Option String
  role : Option String
  token_type : Option String
  jti : Option String
  family_id : Option String
  exp : Int
  iat : Int
deriving DecidableEq, Repr

/-- A JWT string: its payload, whether its signature verifies under the
server's `jwt_secret`, and the raw compact-serialized string (the input
of `hash_token`). -/
structure Token where
  payload : TokenPayload
  validSig : Bool
  raw : String
deriving DecidableEq, Repr

/-- `AccessTokenClaims` (utils/jwt.rs:11): all fields mandatory. -/
structure AccessTokenClaims where
  sub : String
  email : String
  role : String
  token_type : String
  exp : Int
  iat : Int
deriving DecidableEq, Repr

/-- `RefreshTokenClaims` (utils/jwt.rs:22): all fields mandatory. -/
structure RefreshTokenClaims where
  sub : String
  jti : String
  family_id : String
  token_type : String
  exp : Int
  iat : Int
deriving DecidableEq, Repr

/-- Legacy `Claims` (utils/jwt.rs:33): `token_type` has a serde default,
so it alone may be absent. -/
structure Claims where
  sub : String
  email : String
  role : String
  token_type : Option String
  exp : Int
  iat : Int
deriving DecidableEq, Repr

/-- `jsonwebtoken::decode::<AccessTokenClaims>` with `Validation::default()`:
signature check, mandatory serde fields, expiry check. -/
def decodeAccessClaims (now : Int) (t : Token) : Except AppError AccessTokenClaims :=
  if !t.validSig then .error (.TokenError "InvalidSignature")
  else
    match t.payload.email, t.payload.role, t.payload.token_type with
    | some e, some r, some k =>
      if t.payload.exp ≤ now then .error (.TokenError "ExpiredSignature")
      else .ok { sub := t.payload.sub, email := e, role := r, token_type := k,
                 exp := t.payload.exp, iat := t.payload.iat }
    | _, _, _ => .error (.TokenError "missing required claim")

/-- `jsonwebtoken::decode::<RefreshTokenClaims>`. -/
def decodeRefreshClaims (now : Int) (t : Token) : Except AppError RefreshTokenClaims :=
  if !t.validSig then .error (.TokenError "InvalidSignature")
  else
    match t.payload.jti, t.payload.family_id, t.payload.token_type with
    | some j, some f, some k =>
      if t.payload.exp ≤ now then .error (.TokenError "ExpiredSignature")
      else .ok { sub := t.payload.sub, jti := j, family_id := f, token_type := k,
                 exp := t.payload.exp, iat := t.payload.iat }
    | _, _, _ => .error (.TokenError "missing required claim")

/-- `jsonwebtoken::decode::<Claims>` (legacy; `token_type` defaulted). -/
def decodeLegacyClaims (now : Int) (t : Token) : Except AppError Claims :=
  if !t.validSig then .error (.TokenError "InvalidSignature")
  else
    match t.payload.email, t.payload.role with
    | some e, some r =>
      if t.payload.exp ≤ now then .error (.TokenError "ExpiredSignature")
      else .ok { sub := t.payload.sub, email := e, role := r,
                 token_type := t.payload.token_type,
                 exp := t.payload.exp, iat := t.payload.iat }
    | _, _ => .error (.TokenError "missing required claim")

/-- `verify_access_token` (utils/jwt.rs:110): decode, then the kind check
`token_type == "access"`. -/
def verify_access_token (now : Int) (t : Token) : Except AppError AccessTokenClaims :=
  match decodeAccessClaims now t with
  | .error e => .error e
  | .ok c =>
    if c.token_type ≠ "access" then .error (.TokenError "Invalid token type")
    else .ok c

/-- `verify_refresh_token` (utils/jwt.rs:127): decode, then the kind check
`token_type == "refresh"`. -/
def verify_refresh_token (now : Int) (t : Token) : Except AppError RefreshTokenClaims :=
  match decodeRefreshClaims now t with
  | .error e => .error e
  | .ok c =>
    if c.token_type ≠ "refresh" then .error (.TokenError "Invalid token type")
    else .ok c

/-- Legacy `verify_token` (utils/jwt.rs:183): decode only, no kind check. -/
def verify_token (now : Int) (t : Token) : Except AppError Claims :=
  decodeLegacyClaims now t

/-- `hash_token` (utils/jwt.rs:144): SHA-256 of the raw token string,
used only as a collision-free lookup key; modelled as the identity. -/
def hash_token (raw : String) : String :=
  raw

/-- Injective raw-string encoding of a minted refresh token (stands for
the JWT compact serialization, which determines and is determined by the
signed payload). -/
def refreshRaw (user_id jti family_id : Uuid) (iat : Int) : String :=
  "refresh." ++ toString user_id ++ "." ++ toString jti ++ "." ++
    toString family_id ++ "." ++ toString iat

/-- `create_access_token` (utils/jwt.rs:76) via `AccessTokenClaims::new`:
kind tag "access", no `jti`/`family_id` claims. -/
def create_access_token (user_id : Uuid) (email role : String)
    (now expiry_minutes : Int) : Token :=
  { payload :=
      { sub := toString user_id, email := some email, role := some role,
        token_type := some "access", jti := none, family_id := none,
        iat := now, exp := now + expiry_minutes * 60 },
    validSig := true,
    raw := "access." ++ toString user_id ++ "." ++ toString now }

/-- `create_refresh_token` (utils/jwt.rs:93) via `RefreshTokenClaims::new`:
kind tag "refresh", no `email`/`role` claims. -/
def create_refresh_token (user_id jti family_id : Uuid)
    (now expiry_days : Int) : Token :=
  { payload :=
      { sub := toString user_id, email := none, role := none,
        token_type := some "refresh", jti := some (toString jti),
        family_id := some (toString family_id),
        iat := now, exp := now + expiry_days * 86400 },
    validSig := true,
    raw := refreshRaw user_id jti family_id now }

/-- Legacy `create_token` (utils/jwt.rs:172) via `Claims::new`: kind tag
`Some("legacy")`, 7-day expiry. -/
def create_token (user_id : Uuid) (email role : String) (now : Int) : Token :=
  { payload :=
      { sub := toString user_id, email := some email, role := some role,
        token_type := some "legacy", jti := none, family_id := none,
        iat := now, exp := now + 7 * 86400 },
    validSig := true,
    raw := "legacy." ++ toString user_id ++ "." ++ toString now }

/-! ## middleware/auth.rs — Authentication Gate -/

/-- `AuthUser` (middleware/auth.rs:19). -/
structure AuthUser where
  id : Uuid
  email : String
  role : UserRole
deriving DecidableEq, Repr

/-- `require_auth` (middleware/auth.rs:60).  `bearer = none` models a
missing `Authorization` header or a missing `Bearer ` prefix (both are
rejected identically before any verification). -/
def require_auth (now : Int) (bearer : Option Token) : Except AppError AuthUser :=
  match bearer with
  | none => .error .Unauthorized
  | some tok =>
    let resolved : Except AppError (String × String × String) :=
      match verify_access_token now tok with
      | .ok c => .ok (c.sub, c.email, c.role)
      | .error _ =>
        match verify_token now tok with
        | .ok c => .ok (c.sub, c.email, c.role)
        | .error _ => .error .Unauthorized
    match resolved with
    | .error e => .error e
    | .ok (sub, email, role_str) =>
      match parseUuid sub with
      | none => .error (.TokenError "Invalid user ID in token")
      | some uid =>
        match role_str with
        | "admin" => .ok { id := uid, email := email, role := .admin }
        | "user" => .ok { id := uid, email := email, role := .user }
        | _ => .error (.TokenError "Invalid role in token")

/-- `optional_auth` (middleware/auth.rs:108): same resolution but any
failure yields no identity, and the role match is
`"admin" => Admin, _ => User`. -/
def optional_auth (now : Int) (bearer : Option Token) : Option AuthUser :=
  match bearer with
  | none => none
  | some tok =>
    let auth_result : Option (String × String × String) :=
      match verify_access_token now tok with
      | .ok c => some (c.sub, c.email, c.role)
      | .error _ =>
        match verify_token now tok with
        | .ok c => some (c.sub, c.email, c.role)
        | .error _ => none
    match auth_result with
    | none => none
    | some (sub, email, role_str) =>
      match parseUuid sub with
      | none => none
      | some uid =>
        let role := if role_str = "admin" then UserRole.admin else UserRole.user
        some { id := uid, email := email, role := role }

/-! ## handlers/auth.rs — Token Issuer, Session Store, rotation -/

/-- `UserRole`'s `Display` impl (models/user.rs). -/
def roleToString : UserRole → String
  | .admin => "admin"
  | .user => "user"

/-- `User` row (models/user.rs).  `created_at` (DB default, only echoed
back in responses) is omitted. -/
structure User where
  id : Uuid
  email : String
  password_hash : String
  role : UserRole
  must_change_password : Bool
deriving DecidableEq, Repr

/-- `RefreshToken` row (models/refresh_token.rs), the Session Store
record.  `created_at` (DB default, never read by the handlers) is
omitted. -/
structure SessionRow where
  id : Uuid
  user_id : Uuid
  token_hash : String
  family_id : Uuid
  expires_at : Int
  revoked_at : Option Int
  revoked_reason : Option String
  user_agent : Option String
  ip_address : Option String
deriving DecidableEq, Repr

/-- The database state the auth handlers touch. -/
structure AuthDb where
  users : List User
  refresh_tokens : List SessionRow
deriving DecidableEq, Repr

/-- The token-expiry fields of `Config` (config.rs). -/
structure Config where
  access_token_expiry_minutes : Int
  refresh_token_expiry_days : Int
deriving DecidableEq, Repr

/-- `UPDATE refresh_tokens SET revoked_at = NOW(), revoked_reason = $r
WHERE family_id = $1 AND revoked_at IS NULL` (handlers/auth.rs:201). -/
def revoke_family (rows : List SessionRow) (fam : Uuid) (now : Int)
    (reason : String) : List SessionRow :=
  rows.map fun r =>
    if r.family_id = fam ∧ r.revoked_at = none then
      { r with revoked_at := some now, revoked_reason := some reason }
    else r

/-- `UPDATE refresh_tokens SET revoked_at = NOW(), revoked_reason = $r
WHERE id = $1` (handlers/auth.rs:239; no `revoked_at IS NULL` guard). -/
def revoke_one (rows : List SessionRow) (rid : Uuid) (now : Int)
    (reason : String) : List SessionRow :=
  rows.map fun r =>
    if r.id = rid then
      { r with revoked_at := some now, revoked_reason := some reason }
    else r

/-- `UPDATE refresh_tokens SET revoked_at = NOW(), revoked_reason = $r
WHERE user_id = $1 AND revoked_at IS NULL` (handlers/auth.rs:331, 417). -/
def revoke_all_for_user (rows : List SessionRow) (uid : Uuid) (now : Int)
    (reason : String) : List SessionRow :=
  rows.map fun r =>
    if r.user_id = uid ∧ r.revoked_at = none then
      { r with revoked_at := some now, revoked_reason := some reason }
    else r

/-- `TokenRefreshResponse` (models/refresh_token.rs). -/
structure TokenRefreshResponse where
  access_token : Token
  refresh_token : Token
  token_type : String
  expires_in : Int
deriving DecidableEq, Repr

/-- The `refresh_token` handler (handlers/auth.rs:171), the spec's
`rotate` operation.  Ambient effects become explicit inputs: `now` is
`Utc::now()` in seconds, `new_jti` the freshly generated
`Uuid::new_v4()`.  Returns the handler result paired with the updated
database state. -/
def refresh_token_op (cfg : Config) (db : AuthDb) (tok : Token)
    (now : Int) (new_jti : Uuid) :
    Except AppError TokenRefreshResponse × AuthDb :=
  match verify_refresh_token now tok with
  | .error e => (.error e, db)
  | .ok claims =>
    let token_hash := hash_token tok.raw
    match db.refresh_tokens.find? (fun r => r.token_hash == token_hash) with
    | none => (.error (.TokenError "Token not found"), db)
    | some stored_token =>
      if stored_token.revoked_at.isSome then
        -- SECURITY: revoke all tokens in this family, then fail
        (.error .TokenReuseDetected,
         { db with refresh_tokens :=
             (revoke_family db.refresh_tokens stored_token.family_id now
               "security_reuse_detected") })
      else if stored_token.expires_at < now then
        (.error .RefreshTokenExpired, db)
      else
        match db.users.find? (fun u => u.id == stored_token.user_id) with
        | none => (.error .Database, db)
        | some user =>
          -- revoke current token (rotation), then mint the new pair
          let rows1 := revoke_one db.refresh_tokens stored_token.id now "rotation"
          let access_token := create_access_token user.id user.email
            (roleToString user.role) now cfg.access_token_expiry_minutes
          match parseUuid claims.family_id with
          | none => (.error (.TokenError "Invalid family ID"),
                     { db with refresh_tokens := rows1 })
          | some family_id =>
            let new_refresh_token := create_refresh_token user.id new_jti
              family_id now cfg.refresh_token_expiry_days
            let new_row : SessionRow :=
              { id := new_jti, user_id := user.id,
                token_hash := hash_token new_refresh_token.raw,
                family_id := family_id,
                expires_at := now + cfg.refresh_token_expiry_days * 86400,
                revoked_at := none, revoked_reason := none,
                user_agent := stored_token.user_agent,
                ip_address := stored_token.ip_address }
            (.ok { access_token := access_token,
                   refresh_token := new_refresh_token,
                   token_type := "Bearer",
                   expires_in := cfg.access_token_expiry_minutes * 60 },
             { db with refresh_tokens := rows1 ++ [new_row] })

/-- The `change_password` handler (handlers/auth.rs:367).  The Argon2
collaborators enter as the function parameters `verify_pw`/`hash_pw`;
`auth_uid` is the identity `require_auth` attached.  The `validate()`
step checks the new password's minimum length (models/user.rs,
`ChangePasswordRequest`). -/
def change_password_op (verify_pw : String → String → Bool)
    (hash_pw : String → String) (db : AuthDb) (auth_uid : Uuid)
    (current_password new_password : String) (now : Int) :
    Except AppError String × AuthDb :=
  if new_password.length < 8 then
    (.error (.ValidationError "Password must be at least 8 characters"), db)
  else
    match db.users.find? (fun u => u.id == auth_uid) with
    | none => (.error .Database, db)
    | some user =>
      if !verify_pw current_password user.password_hash then
        (.error (.BadRequest "Current password is incorrect"), db)
      else
        let users1 := db.users.map fun u =>
          if u.id = auth_uid then
            { u with password_hash := hash_pw new_password,
                     must_change_password := false }
          else u
        let rows1 := revoke_all_for_user db.refresh_tokens auth_uid now
          "password_change"
        (.ok "Password changed successfully",
         { users := users1, refresh_tokens := rows1 })

/-! ## handlers/file.rs — Authorization Policy over files -/

/-- `Project` row (models/project.rs); `created_at` omitted. -/
structure Project where
  id : Uuid
  user_id : Uuid
  name : String
  api_key : Uuid
  is_public : Bool
deriving DecidableEq, Repr

/-- `Folder` row (models/folder.rs); `created_at` omitted. -/
structure Folder where
  id : Uuid
  project_id : Uuid
  path : String
  is_public : Bool
deriving DecidableEq, Repr

/-- `File` row (models/file.rs); `upload_date` omitted. -/
structure FileRow where
  id : Uuid
  project_id : Uuid
  folder_id : Option Uuid
  original_name : String
  stored_name : String
  file_path : String
  size : Int
  mime_type : String
deriving DecidableEq, Repr

/-- The state the file handlers touch: the three tables plus the blob
store, modelled as the list of occupied physical paths. -/
structure FileDb where
  projects : List Project
  folders : List Folder
  files : List FileRow
  disk : List String
deriving DecidableEq, Repr

/-- `download_file` (handlers/file.rs:221).  `header_key`/`query_key`
are the `X-API-Key` header and the `api_key` query parameter after
`Uuid::parse_str` (`none` collapses absent and unparseable, which the
handler rejects identically).  Success is the handler reaching the disk
read and serving the blob at the file's `file_path`. -/
def download_file (db : FileDb) (file_id : Uuid)
    (header_key query_key : Option Uuid) :
    Except AppError String :=
  match db.files.find? (fun f => f.id == file_id) with
  | none => .error (.NotFound "File not found")
  | some file =>
    match db.projects.find? (fun p => p.id == file.project_id) with
    | none => .error (.NotFound "Project not found")
    | some project =>
      -- get_api_key: first the header, then the query parameter
      let get_api_key : Option Uuid := header_key <|> query_key
      let check : Except AppError Unit :=
        if !project.is_public then
          match file.folder_id with
          | some folder_id =>
            match db.folders.find? (fun fo => fo.id == folder_id) with
            | some folder =>
              if !folder.is_public then
                match get_api_key with
                | none => .error .Unauthorized
                | some k =>
                  if k ≠ project.api_key then .error .Unauthorized else .ok ()
              else .ok ()
            | none => .ok ()   -- folder row missing: no visibility check
          | none =>
            match get_api_key with
            | none => .error .Unauthorized
            | some k =>
              if k ≠ project.api_key then .error .Unauthorized else .ok ()
        else .ok ()
      match check with
      | .error e => .error e
      | .ok _ =>
        if db.disk.contains file.file_path then .ok file.file_path
        else .error (.FileError "Failed to read file")

/-- The `delete_file` handler body (handlers/file.rs:361): either a
resolved identity owning the file's project, or a matching API key. -/
def delete_file (db : FileDb) (opt_user : Option AuthUser)
    (header_key : Option Uuid) (file_id : Uuid) :
    Except AppError String × FileDb :=
  match db.files.find? (fun f => f.id == file_id) with
  | none => (.error (.NotFound "File not found"), db)
  | some file =>
    match db.projects.find? (fun p => p.id == file.project_id) with
    | none => (.error (.NotFound "Project not found"), db)
    | some project =>
      let authorized :=
        match opt_user with
        | some user => project.user_id == user.id
        | none =>
          match header_key with
          | some k => k == project.api_key
          | none => false
      if !authorized then (.error .Unauthorized, db)
      else
        let disk1 := db.disk.filter (fun p => p ≠ file.file_path)
        let files1 := db.files.filter (fun f => f.id ≠ file_id)
        (.ok "File deleted successfully", { db with disk := disk1, files := files1 })

/-- The deployed `DELETE /api/files/:id` endpoint: `main.rs:167-171`
registers `delete_file` inside `protected_routes`, layered with
`require_auth`, so the handler only runs after `require_auth` succeeds
and `OptionalAuthUser` then always extracts the attached identity. -/
def delete_file_route (now : Int) (bearer : Option Token) (db : FileDb)
    (header_key : Option Uuid) (file_id : Uuid) :
    Except AppError String × FileDb :=
  match require_auth now bearer with
  | .error e => (.error e, db)
  | .ok user => delete_file db (some user) header_key file_id

/-- `bulk_delete_files` (handlers/file.rs:554). -/
def bulk_delete_files (db : FileDb) (opt_user : Option AuthUser)
    (header_key : Option Uuid) (file_ids : List Uuid) :
    Except AppError (String × Nat) × FileDb :=
  if file_ids.isEmpty then (.ok ("No files to delete", 0), db)
  else
    let all_files := db.files.filter (fun f => file_ids.contains f.id)
    if all_files.isEmpty then (.error (.NotFound "No files found"), db)
    else
      let authorized_files : Except AppError (List FileRow) :=
        match opt_user with
        | some user =>
          -- JWT auth: files joined to projects owned by the user
          .ok (db.files.filter (fun f => file_ids.contains f.id &&
            (match db.projects.find? (fun p => p.id == f.project_id) with
             | some p => p.user_id == user.id
             | none => false)))
        | none =>
          match header_key with
          | none => .error .Unauthorized
          | some k =>
            match db.projects.find? (fun p => p.api_key == k) with
            | none => .error .Unauthorized
            | some project =>
              let files_in_project :=
                all_files.filter (fun f => f.project_id == project.id)
              if files_in_project.length ≠ file_ids.length then
                .error (.BadRequest
                  "With API key auth, all files must belong to the same project")
              else .ok files_in_project
      match authorized_files with
      | .error e => (.error e, db)
      | .ok auth_files =>
        if auth_files.isEmpty then
          (.error (.NotFound
            "No files found or you don't have permission to delete them"), db)
        else
          let ids := auth_files.map (fun f => f.id)
          let paths := auth_files.map (fun f => f.file_path)
          let disk1 := db.disk.filter (fun p => !paths.contains p)
          let files1 := db.files.filter (fun f => !ids.contains f.id)
          (.ok ("Files deleted successfully", auth_files.length),
           { db with disk := disk1, files := files1 })

/-! ## Folder-path validation (handlers/file.rs:81-109 and 456-477) -/

/-- Adjacent-pair containment: the two-character needle `a, b` occurs in
the list.  Models Rust's `str::contains` for the two-character needles
the validation uses ("..", "//", "\\", "/."). -/
def containsPair : List Char → Char → Char → Bool
  | [], _, _ => false
  | [_], _, _ => false
  | c :: d :: rest, a, b => (c == a && d == b) || containsPair (d :: rest) a b

/-- First character test (Rust's `str::starts_with(char)`). -/
def headIs : List Char → Char → Bool
  | [], _ => false
  | c :: _, a => c == a

/-- Character whitelist of the validation code:
`c.is_alphanumeric() || c == '_' || c == '-' || c == '/' || c == '.'`.
Rust's `is_alphanumeric` is Unicode-wide; we model its ASCII fragment
(`Char.isAlphanum`), which agrees with it on all ASCII input — every
path in the claims is ASCII. -/
def folder_char_ok (c : Char) : Bool :=
  c.isAlphanum || c == '_' || c == '-' || c == '/' || c == '.'

/-- The folder-path validation of `upload_file` (handlers/file.rs:81-109):
traversal check, character whitelist, then the hidden-folder
(dot-segment) check `starts_with('.') || contains("/.")`. -/
def validate_folder_path_upload (path : String) : Except AppError Unit :=
  let l := path.data
  if containsPair l '.' '.' || headIs l '/' || headIs l '\\' ||
      containsPair l '/' '/' || containsPair l '\\' '\\' ||
      l.contains '\x00' then
    .error (.BadRequest "Invalid folder path: path traversal not allowed")
  else if !(l.all folder_char_ok) then
    .error (.BadRequest "Invalid folder path: contains invalid characters")
  else if headIs l '.' || containsPair l '/' '.' then
    .error (.BadRequest "Invalid folder path: hidden folders not allowed")
  else .ok ()

/-- The folder-path validation of `delete_folder_files`
(handlers/file.rs:456-477): traversal check and character whitelist
only — it has no hidden-folder (dot-segment) check. -/
def validate_folder_path_delete (path : String) : Except AppError Unit :=
  let l := path.data
  if containsPair l '.' '.' || headIs l '/' || headIs l '\\' ||
      containsPair l '/' '/' || containsPair l '\\' '\\' ||
      l.contains '\x00' then
    .error (.BadRequest "Invalid folder path: path traversal not allowed")
  else if !(l.all folder_char_ok) then
    .error (.BadRequest "Invalid folder path: contains invalid characters")
  else .ok ()

/-- `/`-separated segments of a path (for the spec-worded predicate). -/
def splitSlash : List Char → List (List Char)
  | [] => [[]]
  | c :: rest =>
    if c = '/' then [] :: splitSlash rest
    else (splitSlash rest).modifyHead (fun s => c :: s)

/-- The claim's rejection set, in the spec's words: "the path contains
`..`, a leading `/` or `\`, any doubled separator, a NUL byte, any
character outside the class letters, digits, underscore, dot, slash,
hyphen, or any segment beginning with
`.`". -/
def spec_path_rejected (path : String) : Bool :=
  let l := path.data
  containsPair l '.' '.' || headIs l '/' || headIs l '\\' ||
    containsPair l '/' '/' || containsPair l '\\' '\\' ||
    l.contains '\x00' ||
    !(l.all folder_char_ok) ||
    (splitSlash l).any (fun seg => headIs seg '.')

/-- The claim's rejection set minus its dot-segment rule (what the
delete-side validation actually enforces). -/
def spec_path_rejected_no_dotseg (path : String) : Bool :=
  let l := path.data
  containsPair l '.' '.' || headIs l '/' || headIs l '\\' ||
    containsPair l '/' '/' || containsPair l '\\' '\\' ||
    l.contains '\x00' ||
    !(l.all folder_char_ok)

/-! ## Concrete instances used by witnesses and counterexamples -/

/-- Token expiry configuration of the concrete instances: 15-minute
access tokens, 30-day refresh tokens. -/
def rotCfg : Config :=
  { access_token_expiry_minutes := 15, refresh_token_expiry_days := 30 }

/-- A refresh token of user 1, jti 10, family 100. -/
def reuseTok : Token :=
  { payload := { sub := "1", email := none, role := none,
                 token_type := some "refresh", jti := some "10",
                 family_id := some "100", exp := 1000, iat := 0 },
    validSig := true, raw := "rawA" }

/-- The claims `verify_refresh_token` decodes from `reuseTok`. -/
def reuseClaims : RefreshTokenClaims :=
  { sub := "1", jti := "10", family_id := "100", token_type := "refresh",
    exp := 1000, iat := 0 }

/-- The already-revoked Session Store row matching `reuseTok`. -/
def reuseRow : SessionRow :=
  { id := 10, user_id := 1, token_hash := "rawA", family_id := 100,
    expires_at := 500, revoked_at := some 5,
    revoked_reason := some "rotation", user_agent := none,
    ip_address := none }

/-- A live sibling row of the same family 100. -/
def siblingRow : SessionRow :=
  { id := 11, user_id := 1, token_hash := "rawB", family_id := 100,
    expires_at := 500, revoked_at := none, revoked_reason := none,
    user_agent := none, ip_address := none }

def demoUser : User :=
  { id := 1, email := "u@x", password_hash := "oldpass123", role := .user,
    must_change_password := false }

/-- Store in which `reuseTok`'s row is already revoked (reuse attack). -/
def reuseDb : AuthDb :=
  { users := [demoUser], refresh_tokens := [reuseRow, siblingRow] }

/-- The same row as `reuseRow` but live. -/
def liveRow : SessionRow :=
  { id := 10, user_id := 1, token_hash := "rawA", family_id := 100,
    expires_at := 500, revoked_at := none, revoked_reason := none,
    user_agent := none, ip_address := none }

/-- Store in which `reuseTok`'s row is live: rotation succeeds. -/
def liveDb : AuthDb := { users := [demoUser], refresh_tokens := [liveRow] }

/-- `liveDb` after user 1 changes the password to "newpass1" at time
60: hash replaced, the one live session revoked. -/
def pwDb : AuthDb :=
  { users := [{ id := 1, email := "u@x", password_hash := "newpass1",
                role := .user, must_change_password := false }],
    refresh_tokens := [{ id := 10, user_id := 1, token_hash := "rawA",
                         family_id := 100, expires_at := 500,
                         revoked_at := some 60,
                         revoked_reason := some "password_change",
                         user_agent := none, ip_address := none }] }

/-- Concrete state: a public project whose single file sits in a
private folder. -/
def pubProjPrivFolderDb : FileDb :=
  { projects := [{ id := 1, user_id := 1, name := "p", api_key := 50,
                   is_public := true }],
    folders := [{ id := 2, project_id := 1, path := "docs",
                  is_public := false }],
    files := [{ id := 3, project_id := 1, folder_id := some 2,
                original_name := "a.txt", stored_name := "3.txt",
                file_path := "store/1/docs/3.txt", size := 4,
                mime_type := "text/plain" }],
    disk := ["store/1/docs/3.txt"] }

/-- Concrete state: one private project (API key 50) owning one file. -/
def apiKeyOnlyDb : FileDb :=
  { projects := [{ id := 1, user_id := 1, name := "p", api_key := 50,
                   is_public := false }],
    folders := [],
    files := [{ id := 3, project_id := 1, folder_id := none,
                original_name := "a.txt", stored_name := "3.txt",
                file_path := "store/1/3.txt", size := 4,
                mime_type := "text/plain" }],
    disk := ["store/1/3.txt"] }

/-- A well-signed, unexpired access-format token whose role claim is the
unrecognized string "superadmin". -/
def unknownRoleTok : Token :=
  { payload := { sub := "7", email := some "e@x", role := some "superadmin",
                 token_type := some "access", jti := none, family_id := none,
                 exp := 100, iat := 0 },
    validSig := true, raw := "raw-unknown-role" }

/-- A token minted by the legacy `create_token`: kind tag "legacy",
email and role claims present. -/
def legacyKindTok : Token := create_token 7 "e@x" "user" 0

/-- A private project whose file's `folder_id` names a folder row that
does not exist. -/
def ghostFolderDb : FileDb :=
  { projects := [{ id := 1, user_id := 1, name := "p", api_key := 50,
                   is_public := false }],
    folders := [],
    files := [{ id := 3, project_id := 1, folder_id := some 99,
                original_name := "a.txt", stored_name := "3.txt",
                file_path := "store/1/3.txt", size := 4,
                mime_type := "text/plain" }],
    disk := ["store/1/3.txt"] }

/-- Files of two different projects, both requested in one bulk delete. -/
def mixedFile3 : FileRow :=
  { id := 3, project_id := 1, folder_id := none, original_name := "a.txt",
    stored_name := "3.txt", file_path := "store/1/3.txt", size := 4,
    mime_type := "text/plain" }

def mixedFile4 : FileRow :=
  { id := 4, project_id := 2, folder_id := none, original_name := "b.txt",
    stored_name := "4.txt", file_path := "store/2/4.txt", size := 4,
    mime_type := "text/plain" }

/-- Two private projects (API keys 50 and 60) with one file each. -/
def mixedDb : FileDb :=
  { projects := [{ id := 1, user_id := 1, name := "p1", api_key := 50,
                   is_public := false },
                 { id := 2, user_id := 2, name := "p2", api_key := 60,
                   is_public := false }],
    folders := [],
    files := [mixedFile3, mixedFile4],
    disk := ["store/1/3.txt", "store/2/4.txt"] }

/-! ## Helper lemmas -/

/-- Rows produced by `revoke_family` that carry the targeted family id
are all revoked. -/
theorem revoke_family_all_revoked (rows : List SessionRow) (fam : Uuid)
    (now : Int) (reason : String) :
    ∀ r ∈ revoke_family rows fam now reason,
      r.family_id = fam → r.revoked_at.isSome := by
  intro r' hmem hfam
  rcases List.mem_map.mp hmem with ⟨r, hr, hEq⟩
  by_cases h : r.family_id = fam ∧ r.revoked_at = none
  · subst hEq
    simp [h]
  · subst hEq
    simp only [if_neg h]
    simp only [if_neg h] at hfam
    rcases Option.eq_none_or_eq_some r.revoked_at with hn | ⟨t, ht⟩
    · exact absurd ⟨hfam, hn⟩ h
    · simp [ht]

/-- `revoke_family` leaves rows of other families untouched. -/
theorem revoke_family_other_unchanged (rows : List SessionRow) (fam : Uuid)
    (now : Int) (reason : String) :
    ∀ r ∈ rows, r.family_id ≠ fam → r ∈ revoke_family rows fam now reason := by
  intro r hr hne
  refine List.mem_map.mpr ⟨r, hr, ?_⟩
  have : ¬ (r.family_id = fam ∧ r.revoked_at = none) := fun hc => hne hc.1
  simp [this]

/-- Filtering strictly shrinks a list that has an element failing the
predicate. -/
theorem length_filter_lt_of_mem_not_pred {α : Type} (l : List α)
    (p : α → Bool) (a : α) (ha : a ∈ l) (hpa : p a = false) :
    (l.filter p).length < l.length := by
  induction l with
  | nil => cases ha
  | cons b t ih =>
    rcases List.mem_cons.mp ha with rfl | hat
    · simp only [List.filter_cons, hpa]
      exact Nat.lt_succ_of_le (List.length_filter_le p t)
    · by_cases hb : p b
      · simpa [List.filter_cons, hb] using Nat.succ_lt_succ (ih hat)
      · simp only [List.filter_cons, Bool.not_eq_true] at hb
        simp only [List.filter_cons, hb]
        exact Nat.lt_succ_of_lt (ih hat)

/-! ## C1 — reuse detection -/

/-- C1: when the presented refresh token hashes to a stored row whose
`revoked_at` is already set, `rotate` (i) returns the distinct
`TokenReuseDetected` error, (ii) leaves the store equal to the
family-wide revocation update (reason `security_reuse_detected`), under
which (iii) every row of that family is revoked while rows of other
families are untouched, and (iv) any later rotate attempt presenting a
sibling token of that family (one whose hash matches a row of the same
family) also fails, whatever the token and clock. -/
theorem rotate_reuse_detected_revokes_family
    (cfg : Config) (db : AuthDb) (tok : Token) (now : Int) (new_jti : Uuid)
    (claims : RefreshTokenClaims) (row : SessionRow) (t0 : Int)
    (hver : verify_refresh_token now tok = .ok claims)
    (hfind : db.refresh_tokens.find?
      (fun r => r.token_hash == hash_token tok.raw) = some row)
    (hrev : row.revoked_at = some t0) :
    (refresh_token_op cfg db tok now new_jti).1 = .error .TokenReuseDetected ∧
    (refresh_token_op cfg db tok now new_jti).2.refresh_tokens =
      revoke_family db.refresh_tokens row.family_id now
        "security_reuse_detected" ∧
    (∀ r ∈ (refresh_token_op cfg db tok now new_jti).2.refresh_tokens,
      r.family_id = row.family_id → r.revoked_at.isSome) ∧
    (∀ r ∈ db.refresh_tokens, r.family_id ≠ row.family_id →
      r ∈ (refresh_token_op cfg db tok now new_jti).2.refresh_tokens) ∧
    (∀ (cfg2 : Config) (tok2 : Token) (now2 : Int) (jti2 : Uuid)
        (row2 : SessionRow),
      (refresh_token_op cfg db tok now new_jti).2.refresh_tokens.find?
        (fun r => r.token_hash == hash_token tok2.raw) = some row2 →
      row2.family_id = row.family_id →
      ∀ resp, (refresh_token_op cfg2 (refresh_token_op cfg db tok now new_jti).2
        tok2 now2 jti2).1 ≠ .ok resp) := by
  have hstate : refresh_token_op cfg db tok now new_jti =
      (.error .TokenReuseDetected,
       { db with refresh_tokens :=
           (revoke_family db.refresh_tokens row.family_id now
             "security_reuse_detected") }) := by
    unfold refresh_token_op
    rw [hver]
    dsimp only
    rw [hfind]
    dsimp only
    simp [hrev]
  refine ⟨by rw [hstate], by rw [hstate], ?_, ?_, ?_⟩
  · rw [hstate]
    exact revoke_family_all_revoked _ _ _ _
  · rw [hstate]
    exact revoke_family_other_unchanged _ _ _ _
  · intro cfg2 tok2 now2 jti2 row2 hfind2 hfam2 resp
    rw [hstate] at hfind2
    dsimp only at hfind2
    have hrev2 : row2.revoked_at.isSome :=
      revoke_family_all_revoked _ _ _ _ row2
        (List.mem_of_find?_eq_some hfind2) hfam2
    rw [hstate]
    unfold refresh_token_op
    cases hv2 : verify_refresh_token now2 tok2 with
    | error e => simp
    | ok c2 =>
      dsimp only
      rw [hfind2]
      simp [hrev2]

/-! ## C5 — successful rotation -/

/-- C5: a single successful rotate revokes exactly the presented row
(reason `rotation`; `revoke_one` is the conditional one-row update),
leaves every other row's revocation state unchanged, and appends exactly
one new row whose `family_id` is the presented token's `family_id` claim
and whose `id` is the fresh `jti`, different from the presented row's. -/
theorem rotate_success_exact_effects
    (cfg : Config) (db : AuthDb) (tok : Token) (now : Int) (new_jti : Uuid)
    (claims : RefreshTokenClaims) (row : SessionRow) (user : User) (fam : Uuid)
    (hver : verify_refresh_token now tok = .ok claims)
    (hfind : db.refresh_tokens.find?
      (fun r => r.token_hash == hash_token tok.raw) = some row)
    (hnotrev : row.revoked_at = none)
    (hnotexp : ¬ row.expires_at < now)
    (huser : db.users.find? (fun u => u.id == row.user_id) = some user)
    (hfam : parseUuid claims.family_id = some fam)
    (hfresh : new_jti ∉ db.refresh_tokens.map (fun r => r.id)) :
    (refresh_token_op cfg db tok now new_jti).1 =
      .ok { access_token := create_access_token user.id user.email
              (roleToString user.role) now cfg.access_token_expiry_minutes,
            refresh_token := create_refresh_token user.id new_jti fam now
              cfg.refresh_token_expiry_days,
            token_type := "Bearer",
            expires_in := cfg.access_token_expiry_minutes * 60 } ∧
    (refresh_token_op cfg db tok now new_jti).2.refresh_tokens =
      revoke_one db.refresh_tokens row.id now "rotation" ++
        [{ id := new_jti, user_id := user.id,
           token_hash := hash_token (create_refresh_token user.id new_jti fam
             now cfg.refresh_token_expiry_days).raw,
           family_id := fam,
           expires_at := now + cfg.refresh_token_expiry_days * 86400,
           revoked_at := none, revoked_reason := none,
           user_agent := row.user_agent, ip_address := row.ip_address }] ∧
    new_jti ≠ row.id ∧
    (∀ r ∈ db.refresh_tokens, r.id ≠ row.id →
      r ∈ (refresh_token_op cfg db tok now new_jti).2.refresh_tokens) := by
  have hstate : refresh_token_op cfg db tok now new_jti =
      (.ok { access_token := create_access_token user.id user.email
               (roleToString user.role) now cfg.access_token_expiry_minutes,
             refresh_token := create_refresh_token user.id new_jti fam now
               cfg.refresh_token_expiry_days,
             token_type := "Bearer",
             expires_in := cfg.access_token_expiry_minutes * 60 },
       { db with refresh_tokens :=
           (revoke_one db.refresh_tokens row.id now "rotation" ++
             [{ id := new_jti, user_id := user.id,
                token_hash := hash_token (create_refresh_token user.id new_jti
                  fam now cfg.refresh_token_expiry_days).raw,
                family_id := fam,
                expires_at := now + cfg.refresh_token_expiry_days * 86400,
                revoked_at := none, revoked_reason := none,
                user_agent := row.user_agent,
                ip_address := row.ip_address }]) }) := by
    unfold refresh_token_op
    rw [hver]
    dsimp only
    rw [hfind]
    dsimp only
    rw [hnotrev]
    simp only [Option.isSome_none, Bool.false_eq_true, if_false, if_neg hnotexp]
    rw [huser]
    dsimp only
    rw [hfam]
  have hrowmem : row ∈ db.refresh_tokens := List.mem_of_find?_eq_some hfind
  have hne : new_jti ≠ row.id := by
    intro hEq
    exact hfresh (List.mem_map.mpr ⟨row, hrowmem, hEq.symm⟩)
  refine ⟨by rw [hstate], by rw [hstate], hne, ?_⟩
  · intro r hr hrne
    rw [hstate]
    refine List.mem_append_left _ (List.mem_map.mpr ⟨r, hr, ?_⟩)
    simp [hrne]

/-! ## C9 — password change cascades to session revocation -/

/-- Rows produced by `revoke_all_for_user` that belong to the targeted
user are all revoked. -/
theorem revoke_all_for_user_all_revoked (rows : List SessionRow)
    (uid : Uuid) (now : Int) (reason : String) :
    ∀ r ∈ revoke_all_for_user rows uid now reason,
      r.user_id = uid → r.revoked_at.isSome := by
  intro r' hmem huid
  rcases List.mem_map.mp hmem with ⟨r, hr, hEq⟩
  by_cases h : r.user_id = uid ∧ r.revoked_at = none
  · subst hEq
    simp [h]
  · subst hEq
    simp only [if_neg h]
    simp only [if_neg h] at huid
    rcases Option.eq_none_or_eq_some r.revoked_at with hn | ⟨t, ht⟩
    · exact absurd ⟨huid, hn⟩ h
    · simp [ht]

/-- C9: after a successful password change the session store equals the
all-sessions revocation update for that user (reason
`password_change`): every previously live row of the user reappears
revoked with that reason, every row of the user is revoked, and any
later rotate attempt whose presented token hashes to a row of that user
fails — with `TokenReuseDetected` when the JWT still verifies, and
never with success. -/
theorem password_change_revokes_sessions
    (verify_pw : String → String → Bool) (hash_pw : String → String)
    (db : AuthDb) (uid : Uuid) (current new_pw : String) (now : Int)
    (msg : String) (db' : AuthDb)
    (h : change_password_op verify_pw hash_pw db uid current new_pw now =
      (.ok msg, db')) :
    db'.refresh_tokens =
      revoke_all_for_user db.refresh_tokens uid now "password_change" ∧
    (∀ r ∈ db'.refresh_tokens, r.user_id = uid → r.revoked_at.isSome) ∧
    (∀ r ∈ db.refresh_tokens, r.user_id = uid → r.revoked_at = none →
      { r with revoked_at := some now,
               revoked_reason := some "password_change" } ∈
        db'.refresh_tokens) ∧
    (∀ (cfg : Config) (tok2 : Token) (now2 : Int) (jti2 : Uuid)
        (row2 : SessionRow),
      db'.refresh_tokens.find?
        (fun r => r.token_hash == hash_token tok2.raw) = some row2 →
      row2.user_id = uid →
      ((∃ c, verify_refresh_token now2 tok2 = .ok c) →
        (refresh_token_op cfg db' tok2 now2 jti2).1 =
          .error .TokenReuseDetected) ∧
      (∀ resp, (refresh_token_op cfg db' tok2 now2 jti2).1 ≠ .ok resp)) := by
  have hdb' : db'.refresh_tokens =
      revoke_all_for_user db.refresh_tokens uid now "password_change" := by
    unfold change_password_op at h
    split at h
    · exact absurd (congrArg Prod.fst h) (by simp)
    · cases hu : db.users.find? (fun u => u.id == uid) with
      | none =>
        rw [hu] at h
        exact absurd (congrArg Prod.fst h) (by simp)
      | some user =>
        rw [hu] at h
        dsimp only at h
        split at h
        · exact absurd (congrArg Prod.fst h) (by simp)
        · have := congrArg Prod.snd h
          dsimp only at this
          rw [← this]
  refine ⟨hdb', ?_, ?_, ?_⟩
  · rw [hdb']
    exact revoke_all_for_user_all_revoked _ _ _ _
  · intro r hr huid hrev
    rw [hdb']
    refine List.mem_map.mpr ⟨r, hr, ?_⟩
    simp [huid, hrev]
  · intro cfg tok2 now2 jti2 row2 hfind2 huid2
    have hrev2 : row2.revoked_at.isSome := by
      rw [hdb'] at hfind2
      exact revoke_all_for_user_all_revoked _ _ _ _ row2
        (List.mem_of_find?_eq_some hfind2) huid2
    constructor
    · rintro ⟨c2, hv2⟩
      unfold refresh_token_op
      rw [hv2]
      dsimp only
      rw [hfind2]
      simp [hrev2]
    · intro resp
      unfold refresh_token_op
      cases hv2 : verify_refresh_token now2 tok2 with
      | error e => simp
      | ok c2 =>
        dsimp only
        rw [hfind2]
        simp [hrev2]

/-! ## C2 / C10 — download visibility -/

/-- C2 counterexample: the file's most-specific visibility flag (its
folder's `is_public`) is `false`, yet download with no credential at
all succeeds — the handler consults folder visibility only when the
project is private, so a private folder inside a public project is
served without any API key, where the claim demands `Unauthorized`. -/
theorem download_private_folder_public_project_counterexample :
    (pubProjPrivFolderDb.files.map fun f => f.folder_id) = [some 2] ∧
    (pubProjPrivFolderDb.folders.map fun fo => fo.is_public) = [false] ∧
    (pubProjPrivFolderDb.projects.map fun p => p.is_public) = [true] ∧
    download_file pubProjPrivFolderDb 3 none none =
      .ok "store/1/docs/3.txt" := by
  refine ⟨rfl, rfl, rfl, by decide⟩

/-- C2 (amended): the handler's actual download policy.  A public
project is always served with no credential (even from a private
folder).  For a private project: a public folder is served freely; a
private folder, or no folder at all, requires the API key — header
taking precedence over the query parameter — to equal the project's
key, and is rejected with `Unauthorized` otherwise. -/
theorem download_visibility_characterization
    (db : FileDb) (fid : Uuid) (file : FileRow) (project : Project)
    (hfile : db.files.find? (fun f => f.id == fid) = some file)
    (hproj : db.projects.find? (fun p => p.id == file.project_id) =
      some project)
    (hdisk : db.disk.contains file.file_path = true) :
    (project.is_public = true →
      ∀ hk qk, download_file db fid hk qk = .ok file.file_path) ∧
    (∀ fo folder, project.is_public = false → file.folder_id = some fo →
      db.folders.find? (fun x => x.id == fo) = some folder →
      folder.is_public = true →
      ∀ hk qk, download_file db fid hk qk = .ok file.file_path) ∧
    (∀ fo folder hk qk, project.is_public = false →
      file.folder_id = some fo →
      db.folders.find? (fun x => x.id == fo) = some folder →
      folder.is_public = false →
      (download_file db fid hk qk = .ok file.file_path ↔
        (hk <|> qk) = some project.api_key) ∧
      ((hk <|> qk) ≠ some project.api_key →
        download_file db fid hk qk = .error .Unauthorized)) ∧
    (∀ hk qk, project.is_public = false → file.folder_id = none →
      (download_file db fid hk qk = .ok file.file_path ↔
        (hk <|> qk) = some project.api_key) ∧
      ((hk <|> qk) ≠ some project.api_key →
        download_file db fid hk qk = .error .Unauthorized)) ∧
    (∀ k qk, download_file db fid (some k) qk =
      download_file db fid (some k) none) := by
  have hred : ∀ hk qk, download_file db fid hk qk =
      (match
        (if !project.is_public then
          match file.folder_id with
          | some folder_id =>
            match db.folders.find? (fun fo => fo.id == folder_id) with
            | some folder =>
              if !folder.is_public then
                match (hk <|> qk : Option Uuid) with
                | none => Except.error AppError.Unauthorized
                | some k =>
                  if k ≠ project.api_key then Except.error .Unauthorized
                  else Except.ok ()
              else Except.ok ()
            | none => Except.ok ()
          | none =>
            match (hk <|> qk : Option Uuid) with
            | none => Except.error AppError.Unauthorized
            | some k =>
              if k ≠ project.api_key then Except.error .Unauthorized
              else Except.ok ()
        else Except.ok ()) with
      | .error e => Except.error e
      | .ok _ =>
        if db.disk.contains file.file_path then Except.ok file.file_path
        else Except.error (.FileError "Failed to read file")) := by
    intro hk qk
    unfold download_file
    rw [hfile]
    dsimp only
    rw [hproj]
  have hdiskm : file.file_path ∈ db.disk := by simpa using hdisk
  refine ⟨?_, ?_, ?_, ?_, ?_⟩
  · intro hpub hk qk
    rw [hred]
    simp [hpub, hdiskm]
  · intro fo folder hpriv hfold hfind hfpub hk qk
    rw [hred]
    simp [hpriv, hfold, hfind, hfpub, hdiskm]
  · intro fo folder hk qk hpriv hfold hfind hfpriv
    rw [hred hk qk]
    simp only [hpriv, hfold, hfind, hfpriv]
    cases hkey : (hk <|> qk : Option Uuid) with
    | none => simp
    | some k =>
      by_cases hkeq : k = project.api_key
      · subst hkeq
        simp [hdiskm]
      · simp [hkeq]
  · intro hk qk hpriv hfold
    rw [hred hk qk]
    simp only [hpriv, hfold]
    cases hkey : (hk <|> qk : Option Uuid) with
    | none => simp
    | some k =>
      by_cases hkeq : k = project.api_key
      · subst hkeq
        simp [hdiskm]
      · simp [hkeq]
  · intro k qk
    rw [hred (some k) qk, hred (some k) none]
    simp

/-- C10: for a private project whose file's `folder_id` refers to no
existing folder row, the handler's `if let Some(folder)` silently falls
through — the download succeeds with no credential at all. -/
theorem download_missing_folder_skips_check
    (db : FileDb) (fid : Uuid) (file : FileRow) (project : Project)
    (fo : Uuid)
    (hfile : db.files.find? (fun f => f.id == fid) = some file)
    (hproj : db.projects.find? (fun p => p.id == file.project_id) =
      some project)
    (hpriv : project.is_public = false)
    (hfold : file.folder_id = some fo)
    (hnone : db.folders.find? (fun x => x.id == fo) = none)
    (hdisk : db.disk.contains file.file_path = true) :
    download_file db fid none none = .ok file.file_path := by
  have hdiskm : file.file_path ∈ db.disk := by simpa using hdisk
  unfold download_file
  rw [hfile]
  dsimp only
  rw [hproj]
  simp [hpriv, hfold, hnone, hdiskm]

/-! ## C3 — the deployed single-file delete route -/

/-- C3: `main.rs` wires `delete_file` behind `require_auth`, so a
request carrying only the correct API key and no bearer token is
rejected with `Unauthorized` before the handler runs and nothing is
deleted — although the handler alone (as its own doc comment and the
claim describe) would have authorized exactly that request. -/
theorem delete_file_route_rejects_api_key_only :
    delete_file_route 0 none apiKeyOnlyDb (some 50) 3 =
      (.error .Unauthorized, apiKeyOnlyDb) ∧
    (delete_file apiKeyOnlyDb none (some 50) 3).1 =
      .ok "File deleted successfully" ∧
    (delete_file apiKeyOnlyDb none (some 50) 3).2.files = [] := by
  refine ⟨by decide, by decide, by decide⟩

/-! ## C8 — bulk delete, API-key mode, mixed projects -/

/-- C8: a bulk delete authenticated only by an API key whose requested
files span two different projects returns `BadRequest` with the
database and blob store untouched. -/
theorem bulk_delete_mixed_projects_rejected
    (db : FileDb) (k : Uuid) (file_ids : List Uuid) (project : Project)
    (f1 f2 : FileRow)
    (hnodup : (db.files.map (fun f => f.id)).Nodup)
    (hproj : db.projects.find? (fun p => p.api_key == k) = some project)
    (h1 : f1 ∈ db.files) (h1in : f1.id ∈ file_ids)
    (h2 : f2 ∈ db.files) (h2in : f2.id ∈ file_ids)
    (hne : f1.project_id ≠ f2.project_id) :
    bulk_delete_files db none (some k) file_ids =
      (.error (.BadRequest
        "With API key auth, all files must belong to the same project"),
       db) := by
  have hidsne : file_ids.isEmpty = false := by
    cases file_ids with
    | nil => cases h1in
    | cons a l => rfl
  have hmem1 : f1 ∈ db.files.filter (fun f => file_ids.contains f.id) :=
    List.mem_filter.mpr ⟨h1, by simpa using h1in⟩
  have hmem2 : f2 ∈ db.files.filter (fun f => file_ids.contains f.id) :=
    List.mem_filter.mpr ⟨h2, by simpa using h2in⟩
  have hallne : (db.files.filter (fun f => file_ids.contains f.id)).isEmpty
      = false := by
    cases hc : db.files.filter (fun f => file_ids.contains f.id) with
    | nil => rw [hc] at hmem1; cases hmem1
    | cons a l => rfl
  -- one of the two spanning files lies outside the key's project
  have hbad : ∃ fb ∈ db.files.filter (fun f => file_ids.contains f.id),
      fb.project_id ≠ project.id := by
    by_cases hc : f1.project_id = project.id
    · exact ⟨f2, hmem2, fun hc2 => hne (hc.trans hc2.symm)⟩
    · exact ⟨f1, hmem1, hc⟩
  rcases hbad with ⟨fb, hfb, hfbne⟩
  -- the project filter strictly shrinks the fetched files
  have hlt : ((db.files.filter (fun f => file_ids.contains f.id)).filter
      (fun f => f.project_id == project.id)).length <
      (db.files.filter (fun f => file_ids.contains f.id)).length :=
    length_filter_lt_of_mem_not_pred _ _ fb hfb
      (by simpa using hfbne)
  -- the fetched files are no more numerous than the requested ids
  have hle : (db.files.filter (fun f => file_ids.contains f.id)).length ≤
      file_ids.length := by
    have hsub : ((db.files.filter (fun f => file_ids.contains f.id)).map
        (fun f => f.id)) ⊆ file_ids := by
      intro x hx
      rcases List.mem_map.mp hx with ⟨f, hf, rfl⟩
      have := (List.mem_filter.mp hf).2
      simpa using this
    have hnod : ((db.files.filter (fun f => file_ids.contains f.id)).map
        (fun f => f.id)).Nodup :=
      hnodup.sublist ((List.filter_sublist db.files).map (fun f => f.id))
    calc (db.files.filter (fun f => file_ids.contains f.id)).length
        = ((db.files.filter (fun f => file_ids.contains f.id)).map
            (fun f => f.id)).length := (List.length_map _ _).symm
      _ ≤ file_ids.length := (hnod.subperm hsub).length_le
  have hlen : ((db.files.filter (fun f => file_ids.contains f.id)).filter
      (fun f => f.project_id == project.id)).length ≠ file_ids.length :=
    Nat.ne_of_lt (Nat.lt_of_lt_of_le hlt hle)
  unfold bulk_delete_files
  simp only [hidsne, hallne, hproj, Bool.false_eq_true, if_false]
  rw [if_pos hlen]

/-! ## C4 — strictness of role decoding in the two gate modes -/

/-- C4 counterexample: in the optional gate mode the unrecognized role
"superadmin" is not a hard `TokenError` — resolution succeeds and the
identity is attached with the defaulted least-privileged `user` role
(`"admin" => Admin, _ => User` at middleware/auth.rs:133-136). -/
theorem optional_auth_defaults_unknown_role :
    optional_auth 0 (some unknownRoleTok) =
      some { id := 7, email := "e@x", role := .user } := by decide

/-- C4 (amended): the required gate is strict — an access-format token
that resolves but carries a role other than "admin"/"user" is rejected
with the hard `TokenError` — while the optional gate default-cases the
same token to an attached identity with the `user` role. -/
theorem role_decoding_strict_required_lax_optional
    (now : Int) (t : Token) (e ρ : String) (uid : Uuid)
    (hsig : t.validSig = true)
    (hemail : t.payload.email = some e)
    (hrole : t.payload.role = some ρ)
    (hkind : t.payload.token_type = some "access")
    (hexp : ¬ t.payload.exp ≤ now)
    (hsub : parseUuid t.payload.sub = some uid)
    (hne1 : ρ ≠ "admin") (hne2 : ρ ≠ "user") :
    require_auth now (some t) = .error (.TokenError "Invalid role in token") ∧
    optional_auth now (some t) = some { id := uid, email := e, role := .user } := by
  have hva : verify_access_token now t =
      .ok { sub := t.payload.sub, email := e, role := ρ,
            token_type := "access", exp := t.payload.exp,
            iat := t.payload.iat } := by
    unfold verify_access_token decodeAccessClaims
    rw [hemail, hrole, hkind]
    simp [hsig, hexp]
  constructor
  · unfold require_auth
    dsimp only
    rw [hva]
    dsimp only
    rw [hsub]
    dsimp only
    split
    · exact absurd rfl hne1
    · exact absurd rfl hne2
    · rfl
  · unfold optional_auth
    dsimp only
    rw [hva]
    dsimp only
    rw [hsub]
    dsimp only
    rw [if_neg hne1]

/-! ## C6 — token-kind separation -/

/-- C6 counterexample: this token's decoded kind tag is "legacy" — not
"access" — yet the access path accepts it: `verify_access_token`
rejects the kind, but the legacy fallback `verify_token` checks no kind
at all, so `require_auth` resolves the identity. -/
theorem access_path_accepts_legacy_kind :
    legacyKindTok.payload.token_type = some "legacy" ∧
    require_auth 1 (some legacyKindTok) =
      .ok { id := 7, email := "e@x", role := .user } := by decide

/-- C6 (amended): kind separation as the code actually enforces it.
(i) Any well-formed token carrying the kind tag "refresh" and no email
claim — the shape of every token `create_refresh_token` mints — is
rejected by the access path, legacy fallback included, because both
decoders require an email field.  (ii) In particular every minted
refresh token is so rejected.  (iii) Conversely any token whose kind
tag is not "refresh" (every access and legacy token) is rejected by the
refresh verification with a `TokenError`.  The access path does accept
kind tags other than "access" when email and role claims are present
(the legacy fallback), which is what the original claim overlooked. -/
theorem token_kind_separation_amended :
    (∀ (now : Int) (t : Token), t.payload.email = none →
      require_auth now (some t) = .error .Unauthorized) ∧
    (∀ (now now0 expiry_days : Int) (uid jti fam : Uuid),
      require_auth now
        (some (create_refresh_token uid jti fam now0 expiry_days)) =
        .error .Unauthorized) ∧
    (∀ (now : Int) (t : Token), t.payload.token_type ≠ some "refresh" →
      ∃ msg, verify_refresh_token now t = .error (.TokenError msg)) := by
  have hnoemail : ∀ (now : Int) (t : Token), t.payload.email = none →
      require_auth now (some t) = .error .Unauthorized := by
    intro now t hemail
    have hva : ∃ msg, verify_access_token now t = .error (.TokenError msg) := by
      unfold verify_access_token decodeAccessClaims
      rw [hemail]
      cases hs : t.validSig with
      | false => exact ⟨"InvalidSignature", rfl⟩
      | true =>
        refine ⟨"missing required claim", ?_⟩
        simp
    have hvt : ∃ msg, verify_token now t = .error (.TokenError msg) := by
      unfold verify_token decodeLegacyClaims
      rw [hemail]
      cases hs : t.validSig with
      | false => exact ⟨"InvalidSignature", rfl⟩
      | true =>
        refine ⟨"missing required claim", ?_⟩
        simp
    rcases hva with ⟨m1, hva⟩
    rcases hvt with ⟨m2, hvt⟩
    unfold require_auth
    dsimp only
    rw [hva]
    dsimp only
    rw [hvt]
  refine ⟨hnoemail, ?_, ?_⟩
  · intro now now0 expiry_days uid jti fam
    exact hnoemail now _ rfl
  · intro now t hkind
    unfold verify_refresh_token decodeRefreshClaims
    cases hs : t.validSig with
    | false => exact ⟨"InvalidSignature", rfl⟩
    | true =>
      simp only [Bool.not_true, Bool.false_eq_true, if_false]
      cases hj : t.payload.jti with
      | none => exact ⟨"missing required claim", rfl⟩
      | some j =>
        cases hf : t.payload.family_id with
        | none => exact ⟨"missing required claim", rfl⟩
        | some f =>
          cases hk : t.payload.token_type with
          | none => exact ⟨"missing required claim", rfl⟩
          | some k =>
            have hkne : k ≠ "refresh" := by
              intro hEq
              exact hkind (by rw [hk, hEq])
            by_cases hexp : t.payload.exp ≤ now
            · exact ⟨"ExpiredSignature", by simp [hexp]⟩
            · exact ⟨"Invalid token type", by simp [hexp, hkne]⟩

/-! ## C7 — folder-path validation -/

/-- `splitSlash` never returns the empty list. -/
theorem splitSlash_ne_nil : ∀ l : List Char, splitSlash l ≠ [] := by
  intro l
  induction l with
  | nil => simp [splitSlash]
  | cons c rest ih =>
    unfold splitSlash
    split
    · simp
    · cases h : splitSlash rest with
      | nil => exact absurd h ih
      | cons s ss => simp [h]

/-- Auxiliary induction for `splitSlash`: the non-first segments hold a
dot-initial segment iff the path contains "/.", and the first segment
starts with '.' iff the path does. -/
theorem splitSlash_dot_aux (l : List Char) :
    (((splitSlash l).tail.any fun seg => headIs seg '.') =
      containsPair l '/' '.') ∧
    (headIs ((splitSlash l).headD []) '.' = headIs l '.') := by
  induction l with
  | nil => exact ⟨rfl, rfl⟩
  | cons c rest ih =>
    cases h : splitSlash rest with
    | nil => exact absurd h (splitSlash_ne_nil rest)
    | cons s ss =>
      obtain ⟨ih1, ih2⟩ := ih
      rw [h] at ih1 ih2
      simp only [List.tail_cons, List.headD_cons] at ih1 ih2
      by_cases hc : c = '/'
      · subst hc
        have hsp : splitSlash ('/' :: rest) = [] :: s :: ss := by
          unfold splitSlash
          rw [if_pos rfl, h]
        rw [hsp]
        simp only [List.tail_cons, List.headD_cons, List.any_cons]
        constructor
        · rw [ih1, ih2]
          cases rest with
          | nil =>
            have hs : s = [] ∧ ss = [] := by
              have : splitSlash ([] : List Char) = [[]] := rfl
              rw [this] at h
              exact ⟨(List.cons.injEq _ _ _ _ ▸ h.symm).1.symm ▸ rfl,
                     by cases h; rfl⟩
            cases h
            rfl
          | cons d t => simp [containsPair, headIs]
        · cases rest with
          | nil => rfl
          | cons d t => rfl
      · have hsp : splitSlash (c :: rest) = (c :: s) :: ss := by
          unfold splitSlash
          rw [if_neg hc, h]
          rfl
        rw [hsp]
        simp only [List.tail_cons, List.headD_cons]
        constructor
        · rw [ih1]
          cases rest with
          | nil => rfl
          | cons d t =>
            have hcf : (c == '/') = false := beq_eq_false_iff_ne.mpr hc
            simp [containsPair, hcf]
        · rfl

/-- A segment of `splitSlash` starts with '.' iff the path starts with
'.' or contains "/.". -/
theorem splitSlash_any_dot (l : List Char) :
    ((splitSlash l).any fun seg => headIs seg '.') =
      (headIs l '.' || containsPair l '/' '.') := by
  cases h : splitSlash l with
  | nil => exact absurd h (splitSlash_ne_nil l)
  | cons s ss =>
    have aux := splitSlash_dot_aux l
    rw [h] at aux
    obtain ⟨h1, h2⟩ := aux
    simp only [List.tail_cons, List.headD_cons] at h1 h2
    simp only [List.any_cons]
    rw [h1, h2]

/-- C7 counterexample: ".hidden/x" has a dot-initial segment and so
belongs to the claim's rejection set, yet the validation applied by the
path-based delete operation (`delete_folder_files`) accepts it — that
copy of the validation lacks the hidden-folder rule. -/
theorem delete_validation_accepts_dot_segment :
    spec_path_rejected ".hidden/x" = true ∧
    validate_folder_path_delete ".hidden/x" = .ok () := by
  refine ⟨by decide, by decide⟩

/-- C7 (amended): the upload-side validation accepts a path exactly
when the claim's rejection set (with Rust's Unicode `is_alphanumeric`
restricted to its ASCII fragment) excludes it; the delete-side
validation enforces the same set minus the dot-segment rule, so
dot-initial segments such as ".hidden/x" pass it. -/
theorem path_validation_reject_sets (path : String) :
    (validate_folder_path_upload path = .ok () ↔
      spec_path_rejected path = false) ∧
    (validate_folder_path_delete path = .ok () ↔
      spec_path_rejected_no_dotseg path = false) := by
  constructor
  · unfold validate_folder_path_upload spec_path_rejected
    dsimp only
    rw [splitSlash_any_dot]
    cases hA : (containsPair path.data '.' '.' || headIs path.data '/' ||
        headIs path.data '\\' || containsPair path.data '/' '/' ||
        containsPair path.data '\\' '\\' || path.data.contains '\x00') with
    | true => simp
    | false =>
      cases hB : path.data.all folder_char_ok with
      | false => simp
      | true =>
        cases hD : (headIs path.data '.' || containsPair path.data '/' '.') with
        | true => simp
        | false => simp
  · unfold validate_folder_path_delete spec_path_rejected_no_dotseg
    dsimp only
    cases hA : (containsPair path.data '.' '.' || headIs path.data '/' ||
        headIs path.data '\\' || containsPair path.data '/' '/' ||
        containsPair path.data '\\' '\\' || path.data.contains '\x00') with
    | true => simp
    | false =>
      cases hB : path.data.all folder_char_ok with
      | false => simp
      | true => simp

/-! ## Witnesses: the hypothesis-bearing theorems at concrete inputs -/

/-- C1's theorem at the concrete reuse store. -/
theorem rotate_reuse_detected_revokes_family_witness :
    (refresh_token_op rotCfg reuseDb reuseTok 50 12).1 =
      .error .TokenReuseDetected :=
  (rotate_reuse_detected_revokes_family rotCfg reuseDb reuseTok 50 12
    reuseClaims reuseRow 5 (by decide) (by decide) (by decide)).1

/-- C5's theorem at the concrete live store. -/
theorem rotate_success_exact_effects_witness :
    (refresh_token_op rotCfg liveDb reuseTok 50 12).1 =
      .ok { access_token := create_access_token 1 "u@x"
              (roleToString .user) 50 15,
            refresh_token := create_refresh_token 1 12 100 50 30,
            token_type := "Bearer", expires_in := 15 * 60 } :=
  (rotate_success_exact_effects rotCfg liveDb reuseTok 50 12 reuseClaims
    liveRow demoUser 100 (by decide) (by decide) (by decide) (by decide)
    (by decide) (by decide) (by decide)).1

/-- C9's theorem at the concrete store and password change. -/
theorem password_change_revokes_sessions_witness :
    pwDb.refresh_tokens =
      revoke_all_for_user liveDb.refresh_tokens 1 60 "password_change" :=
  (password_change_revokes_sessions (fun p h => p == h) (fun p => p)
    liveDb 1 "oldpass123" "newpass1" 60 "Password changed successfully"
    pwDb (by decide)).1

/-- C2's amended theorem at a private project with no folder: the
matching API key in the header grants the download. -/
theorem download_visibility_characterization_witness :
    download_file apiKeyOnlyDb 3 (some 50) none = .ok "store/1/3.txt" :=
  ((download_visibility_characterization apiKeyOnlyDb 3
      { id := 3, project_id := 1, folder_id := none,
        original_name := "a.txt", stored_name := "3.txt",
        file_path := "store/1/3.txt", size := 4,
        mime_type := "text/plain" }
      { id := 1, user_id := 1, name := "p", api_key := 50,
        is_public := false }
      (by decide) (by decide) (by decide)).2.2.2.1 (some 50) none rfl
      rfl).1.mpr (by decide)

/-- C10's theorem at the concrete missing-folder store. -/
theorem download_missing_folder_skips_check_witness :
    download_file ghostFolderDb 3 none none = .ok "store/1/3.txt" :=
  download_missing_folder_skips_check ghostFolderDb 3
    { id := 3, project_id := 1, folder_id := some 99,
      original_name := "a.txt", stored_name := "3.txt",
      file_path := "store/1/3.txt", size := 4, mime_type := "text/plain" }
    { id := 1, user_id := 1, name := "p", api_key := 50,
      is_public := false }
    99 (by decide) (by decide) (by decide) (by decide) (by decide)
    (by decide)

/-- C4's amended theorem at the concrete unknown-role token. -/
theorem role_decoding_strict_required_lax_optional_witness :
    require_auth 0 (some unknownRoleTok) =
      .error (.TokenError "Invalid role in token") :=
  (role_decoding_strict_required_lax_optional 0 unknownRoleTok "e@x"
    "superadmin" 7 (by decide) (by decide) (by decide) (by decide)
    (by decide) (by decide) (by decide) (by decide)).1

/-- C6's amended theorem at a freshly minted refresh token and at the
legacy-kind token. -/
theorem token_kind_separation_amended_witness :
    require_auth 5 (some (create_refresh_token 1 10 100 0 30)) =
      .error .Unauthorized ∧
    (∃ msg, verify_refresh_token 5 legacyKindTok =
      .error (.TokenError msg)) :=
  ⟨token_kind_separation_amended.2.1 5 0 30 1 10 100,
   token_kind_separation_amended.2.2 5 legacyKindTok (by decide)⟩

/-- C7's amended theorem at the accepted path of the claim's examples. -/
theorem path_validation_reject_sets_witness :
    (validate_folder_path_upload "docs/2024/q1" = .ok () ↔
      spec_path_rejected "docs/2024/q1" = false) ∧
    (validate_folder_path_delete "docs/2024/q1" = .ok () ↔
      spec_path_rejected_no_dotseg "docs/2024/q1" = false) :=
  path_validation_reject_sets "docs/2024/q1"

/-- C8's theorem at the concrete two-project store. -/
theorem bulk_delete_mixed_projects_rejected_witness :
    bulk_delete_files mixedDb none (some 50) [3, 4] =
      (.error (.BadRequest
        "With API key auth, all files must belong to the same project"),
       mixedDb) :=
  bulk_delete_mixed_projects_rejected mixedDb 50 [3, 4]
    { id := 1, user_id := 1, name := "p1", api_key := 50,
      is_public := false }
    mixedFile3 mixedFile4 (by decide) (by decide) (by decide) (by decide)
    (by decide) (by decide) (by decide)

end FileRunner
